import Mathlib

/-!
Shallow embedding of the Kate text-layout engine's `KateTextLayout`
(src/part/part/katetextlayout.cpp) together with the slice of its
collaborator `KateLineLayout` that the queries read.  C++ `int` becomes
`Int`; the nullable `KateLineLayoutPtr` becomes `Option KateLineLayout`;
the `mutable int m_startX` cache becomes explicit state passing
(`startXState` returns the value and the updated instance).
-/

/-- One shaped sub-line run (a `QTextLine`): an external Qt value carrying
the text-start column, text length and natural width that the layout
queries read.  A default-constructed `QTextLine` reports 0 for all three. -/
structure Run where
  textStart : Int
  textLength : Int
  naturalTextWidth : Int
deriving DecidableEq, Repr

/-- Modelled from the spec: `KateLineLayout` (katelinerange.cpp is not part
of the provided sources).  It owns the wrap decomposition of one logical
line: logical and virtual line indices, the ordered shaped runs, a per-run
dirty bit, the wrap-indent `shiftX`, and a liveness/validity flag. -/
structure KateLineLayout where
  isValid : Bool
  line : Int
  virtualLine : Int
  shiftX : Int
  runs : List Run
  dirtyFlags : List Bool
deriving DecidableEq, Repr

/-- Modelled from the spec: `viewLineCount()` is the number of wrap
segments (runs) of the line. -/
def KateLineLayout.viewLineCount (ll : KateLineLayout) : Int :=
  (ll.runs.length : Int)

/-- Modelled from the spec: `layout()->lineAt(i)` returns the i-th shaped
run; an out-of-range index yields a default (invalid) `QTextLine`. -/
def KateLineLayout.lineAt (ll : KateLineLayout) (i : Nat) : Run :=
  ll.runs.getD i ⟨0, 0, 0⟩

/-- Modelled from the spec: `KateLineLayout::isDirty(viewLine)` returns the
run's dirty bit, and `true` unconditionally if the layout is not valid. -/
def KateLineLayout.runIsDirty (ll : KateLineLayout) (i : Int) : Bool :=
  if ll.isValid = true then ll.dirtyFlags.getD i.toNat true else true

/-- Modelled from the spec: `KateLineLayout::setDirty(viewLine, dirty)`
marks/clears the run's dirty bit and returns the previous value; it is a
no-op reporting dirty on an invalid layout. -/
def KateLineLayout.runSetDirty (ll : KateLineLayout) (i : Int) (d : Bool) :
    Bool × KateLineLayout :=
  if ll.isValid = true then
    (ll.dirtyFlags.getD i.toNat true,
     { ll with dirtyFlags := ll.dirtyFlags.set i.toNat d })
  else
    (true, ll)

/-- `KateTextLayout`: a non-owning reference to the line layout, the
view-line index, the lazily computed start-X cache (`mutable int m_startX`)
and the copied shaped run (`QTextLine m_textLayout`). -/
structure KateTextLayout where
  m_lineLayout : Option KateLineLayout
  m_viewLine : Int
  m_startX : Int
  m_textLayout : Run
deriving DecidableEq, Repr

/-- The validity condition of `KateTextLayout::isValid` as a function of the
two fields it reads: `m_lineLayout && m_lineLayout->isValid() &&
m_viewLine >= 0 && m_viewLine < m_lineLayout->viewLineCount()`. -/
def validFor : Option KateLineLayout → Int → Bool
  | none, _ => false
  | some ll, i => ll.isValid && decide (0 ≤ i) && decide (i < ll.viewLineCount)

def KateTextLayout.isValid (t : KateTextLayout) : Bool :=
  validFor t.m_lineLayout t.m_viewLine

/-- The owning line layout, only meaningful on a valid instance (the C++
code dereferences the pointer only after the validity check). -/
def KateTextLayout.ownerD (t : KateTextLayout) : KateLineLayout :=
  t.m_lineLayout.getD ⟨false, -1, -1, 0, [], []⟩

def KateTextLayout.ownerRuns (t : KateTextLayout) : List Run :=
  match t.m_lineLayout with
  | some ll => ll.runs
  | none => []

/-- `KateTextLayout::KateTextLayout(KateLineLayoutPtr line, int viewLine)`:
initialises `m_startX` to `viewLine ? -1 : 0` and, if the instance is
valid, copies `m_lineLayout->layout()->lineAt(m_viewLine)` into
`m_textLayout`. -/
def KateTextLayout.create (l : Option KateLineLayout) (viewLine : Int) :
    KateTextLayout :=
  { m_lineLayout := l
  , m_viewLine := viewLine
  , m_startX := if viewLine = 0 then 0 else -1
  , m_textLayout :=
      if validFor l viewLine = true then
        match l with
        | some ll => ll.lineAt viewLine.toNat
        | none => ⟨0, 0, 0⟩
      else ⟨0, 0, 0⟩ }

def KateTextLayout.line (t : KateTextLayout) : Int :=
  if t.isValid = true then t.ownerD.line else -1

def KateTextLayout.virtualLine (t : KateTextLayout) : Int :=
  if t.isValid = true then t.ownerD.virtualLine else -1

def KateTextLayout.viewLine (t : KateTextLayout) : Int :=
  if t.isValid = true then t.m_viewLine else 0

def KateTextLayout.startCol (t : KateTextLayout) : Int :=
  if t.isValid = true then t.m_textLayout.textStart else 0

def KateTextLayout.endCol (t : KateTextLayout) : Int :=
  if t.isValid = true then t.startCol + t.m_textLayout.textLength else 0

def KateTextLayout.length (t : KateTextLayout) : Int :=
  if t.isValid = true then t.m_textLayout.textLength else 0

def KateTextLayout.isEmpty (t : KateTextLayout) : Bool :=
  if t.isValid = true then
    decide (t.startCol = 0) && decide (t.endCol = 0)
  else true

def KateTextLayout.wrap (t : KateTextLayout) : Bool :=
  if t.isValid = true then
    decide (t.viewLine < t.ownerD.viewLineCount - 1)
  else false

/-- Sum of the natural widths of the first `n` runs: the loop
`for (int i = 0; i < viewLine(); ++i) m_startX += ...naturalTextWidth()`. -/
def sumWidths (rs : List Run) (n : Nat) : Int :=
  ((rs.take n).map Run.naturalTextWidth).sum

/-- `KateTextLayout::startX`: returns 0 when invalid; otherwise, when the
cache still holds the `-1` sentinel, accumulates the widths of the prior
runs ONTO the sentinel (the C++ loop starts from `m_startX == -1`, never
resetting it to 0) and stores the result; then returns the cache. -/
def KateTextLayout.startXState (t : KateTextLayout) : Int × KateTextLayout :=
  if t.isValid = true then
    if t.m_startX = -1 then
      let v := t.m_startX + sumWidths t.ownerRuns t.m_viewLine.toNat
      (v, { t with m_startX := v })
    else
      (t.m_startX, t)
  else
    (0, t)

/-- The value returned by `startX()`. -/
def KateTextLayout.startX (t : KateTextLayout) : Int :=
  t.startXState.1

/-- `KateTextLayout::endX`: reads the raw `m_startX` field (not `startX()`),
so the `-1` sentinel leaks through when `startX()` has not run yet. -/
def KateTextLayout.endX (t : KateTextLayout) : Int :=
  if t.isValid = true then t.m_startX + t.m_textLayout.naturalTextWidth else 0

def KateTextLayout.width (t : KateTextLayout) : Int :=
  if t.isValid = true then t.m_textLayout.naturalTextWidth else 0

/-- `KateTextLayout::xOffset`: `startX() ? m_lineLayout->shiftX() : 0`. -/
def KateTextLayout.xOffset (t : KateTextLayout) : Int :=
  if t.isValid = true then
    if t.startX = 0 then 0 else t.ownerD.shiftX
  else 0

/-- `KateTextLayout::isDirty`. -/
def KateTextLayout.isDirty (t : KateTextLayout) : Bool :=
  if t.isValid = true then t.ownerD.runIsDirty t.viewLine else true

/-- `KateTextLayout::setDirty`: delegates to the owner and hands back the
updated owner (the C++ mutation of the shared line layout). -/
def KateTextLayout.setDirtyState (t : KateTextLayout) (d : Bool) :
    Bool × KateTextLayout :=
  if t.isValid = true then
    let r := t.ownerD.runSetDirty t.viewLine d
    (r.1, { t with m_lineLayout := some r.2 })
  else
    (true, t)

/-- `KTextEditor::Cursor`: a (line, column) position. -/
structure Cursor where
  line : Int
  column : Int
deriving DecidableEq, Repr

/-- `KateTextLayout::includesCursor`. -/
def KateTextLayout.includesCursor (t : KateTextLayout) (c : Cursor) : Bool :=
  decide (c.line = t.line) && decide (t.startCol ≤ c.column) &&
    (!t.wrap || decide (c.column < t.endCol))

/-- `operator> (const KateTextLayout&, const Cursor&)`:
`r.line() > c.line() || r.endCol() > c.column()`. -/
def gtCursor (r : KateTextLayout) (c : Cursor) : Bool :=
  decide (c.line < r.line) || decide (c.column < r.endCol)

/-- `operator>=`: `r.line() > c.line() || r.endCol() >= c.column()`. -/
def geCursor (r : KateTextLayout) (c : Cursor) : Bool :=
  decide (c.line < r.line) || decide (c.column ≤ r.endCol)

/-- `operator<`: `r.line() < c.line() || r.startCol() < c.column()`. -/
def ltCursor (r : KateTextLayout) (c : Cursor) : Bool :=
  decide (r.line < c.line) || decide (r.startCol < c.column)

/-- `operator<=`: `r.line() < c.line() || r.startCol() <= c.column()`. -/
def leCursor (r : KateTextLayout) (c : Cursor) : Bool :=
  decide (r.line < c.line) || decide (r.startCol ≤ c.column)

/-- Mutating the owner's `shiftX` (a collaborator-side edit between two
queries on the same still-valid instance). -/
def KateTextLayout.setShiftX (t : KateTextLayout) (s : Int) : KateTextLayout :=
  { t with m_lineLayout := t.m_lineLayout.map fun ll => { ll with shiftX := s } }

-- Scratch sanity checks on the concrete two-run line used in the spec's
-- scenario (widths 10 and 7, shiftX 4).
example :
    (KateTextLayout.create
      (some ⟨true, 0, 0, 4, [⟨0, 3, 10⟩, ⟨3, 4, 7⟩], [false, false]⟩) 1).startX
      = 9 := by decide

example :
    (KateTextLayout.create
      (some ⟨true, 0, 0, 4, [⟨0, 3, 10⟩, ⟨3, 4, 7⟩], [false, false]⟩) 1).endX
      = 6 := by decide

example :
    (KateTextLayout.create
      (some ⟨true, 0, 0, 4, [⟨0, 3, 10⟩, ⟨3, 4, 7⟩], [false, false]⟩) 0).startX
      = 0 := by decide

/-! Small helper lemmas shared by the claim theorems. -/

@[simp]
lemma create_m_lineLayout (l : Option KateLineLayout) (i : Int) :
    (KateTextLayout.create l i).m_lineLayout = l := rfl

@[simp]
lemma create_m_viewLine (l : Option KateLineLayout) (i : Int) :
    (KateTextLayout.create l i).m_viewLine = i := rfl

@[simp]
lemma create_m_startX (l : Option KateLineLayout) (i : Int) :
    (KateTextLayout.create l i).m_startX = if i = 0 then 0 else -1 := rfl

@[simp]
lemma isValid_create (l : Option KateLineLayout) (i : Int) :
    (KateTextLayout.create l i).isValid = validFor l i := rfl

@[simp]
lemma ownerD_create (ll : KateLineLayout) (i : Int) :
    (KateTextLayout.create (some ll) i).ownerD = ll := rfl

@[simp]
lemma ownerRuns_create (ll : KateLineLayout) (i : Int) :
    (KateTextLayout.create (some ll) i).ownerRuns = ll.runs := rfl

lemma isValid_some_elim (t : KateTextLayout) (ll : KateLineLayout)
    (hml : t.m_lineLayout = some ll) (hv : t.isValid = true) :
    ll.isValid = true ∧ 0 ≤ t.m_viewLine ∧ t.m_viewLine < ll.viewLineCount := by
  unfold KateTextLayout.isValid at hv
  rw [hml] at hv
  unfold validFor at hv
  simp only [Bool.and_eq_true, decide_eq_true_eq] at hv
  exact ⟨hv.1.1, hv.1.2, hv.2⟩

lemma getD_set_ne (l : List Bool) (i j : Nat) (a b : Bool) (h : j ≠ i) :
    (l.set i a).getD j b = l.getD j b := by
  simp only [List.getD_eq_getElem?_getD]
  rw [List.getElem?_set_ne (by omega)]

/-- C1: on this code, `startX()` of a non-first run is NOT the cumulative
prior width plus `shiftX()`: with prior widths summing to 10 and
`shiftX = 4`, the claim predicts 14 but the code returns 9 (the `-1`
sentinel is accumulated into the sum and `shiftX` is never added). -/
theorem c1_startX_counterexample :
    (KateTextLayout.create
        (some ⟨true, 0, 0, 4, [⟨0, 3, 10⟩, ⟨3, 4, 7⟩], [false, false]⟩)
        1).startX = 9 ∧
    sumWidths [⟨0, 3, 10⟩, ⟨3, 4, 7⟩] 1 +
        (KateLineLayout.shiftX ⟨true, 0, 0, 4, [⟨0, 3, 10⟩, ⟨3, 4, 7⟩], [false, false]⟩) = 14 ∧
    (KateTextLayout.create
        (some ⟨true, 0, 0, 4, [⟨0, 3, 10⟩, ⟨3, 4, 7⟩], [false, false]⟩)
        1).startX ≠ 14 := by
  decide

/-- C1 (amended): for every valid freshly constructed `KateTextLayout` with
`viewLine > 0`, `startX()` returns the cumulative natural width of the
prior runs MINUS 1 (the uncomputed `-1` sentinel is folded into the
accumulation), and the owner's `shiftX()` does not enter at all. -/
theorem c1_startX_amended (ll : KateLineLayout) (i : Int) (h0 : 0 < i)
    (hv : (KateTextLayout.create (some ll) i).isValid = true) :
    (KateTextLayout.create (some ll) i).startX = sumWidths ll.runs i.toNat - 1 := by
  have hne : ¬ (i = 0) := by omega
  rw [isValid_create] at hv
  unfold KateTextLayout.startX KateTextLayout.startXState
  simp only [isValid_create, hv, if_true, create_m_startX, create_m_viewLine,
    ownerRuns_create, hne, if_false]
  ring

/-- C1 amended, witnessed on the two-run line with widths 10 and 7. -/
theorem c1_startX_amended_witness :
    (KateTextLayout.create
        (some ⟨true, 0, 0, 4, [⟨0, 3, 10⟩, ⟨3, 4, 7⟩], [false, false]⟩)
        1).startX = sumWidths [⟨0, 3, 10⟩, ⟨3, 4, 7⟩] (1 : Int).toNat - 1 :=
  c1_startX_amended ⟨true, 0, 0, 4, [⟨0, 3, 10⟩, ⟨3, 4, 7⟩], [false, false]⟩ 1
    (by decide) (by decide)

/-- C2: a column strictly greater than `endCol()` CAN be included: on the
final (non-wrapping) run covering columns [5, 10), the cursor at column 50
is reported as included, contradicting the claim's upper bound. -/
theorem c2_includesCursor_counterexample :
    (KateTextLayout.create
        (some ⟨true, 0, 0, 0, [⟨0, 5, 10⟩, ⟨5, 5, 8⟩], [false, false]⟩)
        1).includesCursor ⟨0, 50⟩ = true ∧
    (KateTextLayout.create
        (some ⟨true, 0, 0, 0, [⟨0, 5, 10⟩, ⟨5, 5, 8⟩], [false, false]⟩)
        1).endCol < 50 := by
  decide

/-- C2 (amended): `includesCursor(c)` holds iff the cursor's line matches,
its column is at least `startCol()`, and, ONLY when the run wraps, its
column is below `endCol()`; the final run of a line imposes no upper bound
on the column at all. -/
theorem c2_includesCursor_amended (t : KateTextLayout) (c : Cursor) :
    t.includesCursor c = true ↔
      (c.line = t.line ∧ t.startCol ≤ c.column ∧
        (t.wrap = true → c.column < t.endCol)) := by
  cases hw : t.wrap <;> simp [KateTextLayout.includesCursor, hw, and_assoc]

/-- C3: the comparison operators are NOT lexicographic: for a run on line 5
with `startCol = 0` and a cursor at (line 3, column 7), lexicographic
comparison says the run is not before the cursor (5 > 3), yet the code's
`operator<` returns true because `0 < 7` alone decides it. -/
theorem c3_ordering_counterexample :
    ltCursor
        (KateTextLayout.create (some ⟨true, 5, 5, 0, [⟨0, 5, 10⟩], [false]⟩) 0)
        ⟨3, 7⟩ = true ∧
    ¬ ((KateTextLayout.create (some ⟨true, 5, 5, 0, [⟨0, 5, 10⟩], [false]⟩) 0).line < 3 ∨
        ((KateTextLayout.create (some ⟨true, 5, 5, 0, [⟨0, 5, 10⟩], [false]⟩) 0).line = 3 ∧
          (KateTextLayout.create (some ⟨true, 5, 5, 0, [⟨0, 5, 10⟩], [false]⟩) 0).startCol < 7)) := by
  decide

/-- C3 (amended): each operator is a plain disjunction with no
line-equality guard: `r < c` iff `r.line() < c.line()` OR
`r.startCol() < c.column()`, and likewise for `<=`, `>`, `>=` (the latter
two using `endCol()`); when the lines differ the column comparison can
still decide the result by itself. -/
theorem c3_ordering_amended (r : KateTextLayout) (c : Cursor) :
    (ltCursor r c = true ↔ (r.line < c.line ∨ r.startCol < c.column)) ∧
    (leCursor r c = true ↔ (r.line < c.line ∨ r.startCol ≤ c.column)) ∧
    (gtCursor r c = true ↔ (c.line < r.line ∨ c.column < r.endCol)) ∧
    (geCursor r c = true ↔ (c.line < r.line ∨ c.column ≤ r.endCol)) := by
  simp [ltCursor, leCursor, gtCursor, geCursor]

/-- C4: `endX()` does not equal `startX() + width()` on a fresh instance
whose `startX()` has never been computed: `endX()` reads the raw cache
field, so the `-1` sentinel leaks into the result (6), whereas
`startX() + width()` is 16. -/
theorem c4_endX_code_bug :
    (KateTextLayout.create
        (some ⟨true, 0, 0, 4, [⟨0, 3, 10⟩, ⟨3, 4, 7⟩], [false, false]⟩)
        1).endX = 6 ∧
    (KateTextLayout.create
        (some ⟨true, 0, 0, 4, [⟨0, 3, 10⟩, ⟨3, 4, 7⟩], [false, false]⟩)
        1).startX +
      (KateTextLayout.create
        (some ⟨true, 0, 0, 4, [⟨0, 3, 10⟩, ⟨3, 4, 7⟩], [false, false]⟩)
        1).width = 16 ∧
    (KateTextLayout.create
        (some ⟨true, 0, 0, 4, [⟨0, 3, 10⟩, ⟨3, 4, 7⟩], [false, false]⟩)
        1).endX ≠
      (KateTextLayout.create
        (some ⟨true, 0, 0, 4, [⟨0, 3, 10⟩, ⟨3, 4, 7⟩], [false, false]⟩)
        1).startX +
      (KateTextLayout.create
        (some ⟨true, 0, 0, 4, [⟨0, 3, 10⟩, ⟨3, 4, 7⟩], [false, false]⟩)
        1).width := by
  decide

/-- C5: on an invalid `KateTextLayout` every query returns its neutral
default (`0`, `false`, or `-1` for the line identifiers), and any instance
constructed with a negative view-line index or one at least
`viewLineCount()` is invalid. -/
theorem c5_invalid_defaults (t : KateTextLayout) (ll : KateLineLayout) (i : Int)
    (h : t.isValid = false) (hi : i < 0 ∨ ll.viewLineCount ≤ i) :
    t.startCol = 0 ∧ t.endCol = 0 ∧ t.length = 0 ∧ t.startX = 0 ∧ t.endX = 0 ∧
    t.width = 0 ∧ t.xOffset = 0 ∧ t.viewLine = 0 ∧ t.wrap = false ∧
    t.line = -1 ∧ t.virtualLine = -1 ∧
    (KateTextLayout.create (some ll) i).isValid = false := by
  simp only [KateTextLayout.startCol, KateTextLayout.endCol, KateTextLayout.length,
    KateTextLayout.startX, KateTextLayout.startXState, KateTextLayout.endX,
    KateTextLayout.width, KateTextLayout.xOffset, KateTextLayout.viewLine,
    KateTextLayout.wrap, KateTextLayout.line, KateTextLayout.virtualLine,
    h, Bool.false_eq_true, if_false, isValid_create]
  simp only [true_and, and_true]
  unfold validFor
  rcases hi with hi | hi
  · have hd : decide (0 ≤ i) = false := by
      simp only [decide_eq_false_iff_not]
      omega
    simp [hd]
  · have hd : decide (i < ll.viewLineCount) = false := by
      simp only [decide_eq_false_iff_not]
      omega
    simp [hd]

/-- C5, witnessed on the null-owner instance and the index `-1`. -/
theorem c5_invalid_defaults_witness :
    (KateTextLayout.create none 0).startCol = 0 ∧
    (KateTextLayout.create none 0).endCol = 0 ∧
    (KateTextLayout.create none 0).length = 0 ∧
    (KateTextLayout.create none 0).startX = 0 ∧
    (KateTextLayout.create none 0).endX = 0 ∧
    (KateTextLayout.create none 0).width = 0 ∧
    (KateTextLayout.create none 0).xOffset = 0 ∧
    (KateTextLayout.create none 0).viewLine = 0 ∧
    (KateTextLayout.create none 0).wrap = false ∧
    (KateTextLayout.create none 0).line = -1 ∧
    (KateTextLayout.create none 0).virtualLine = -1 ∧
    (KateTextLayout.create (some ⟨true, 0, 0, 0, [⟨0, 1, 5⟩], [false]⟩) (-1)).isValid
      = false :=
  c5_invalid_defaults (KateTextLayout.create none 0)
    ⟨true, 0, 0, 0, [⟨0, 1, 5⟩], [false]⟩ (-1) (by decide) (Or.inl (by decide))

/-- C6: `isValid()` holds iff the owner reference is non-null, the owner is
itself valid, and the view-line index lies in `[0, viewLineCount())`; and
every instance freshly constructed from a valid owner with an in-range
index is valid. -/
theorem c6_isValid_iff (t : KateTextLayout) (ll : KateLineLayout) (i : Int)
    (hll : ll.isValid = true) (h0 : 0 ≤ i) (hc : i < ll.viewLineCount) :
    (t.isValid = true ↔
      ∃ l, t.m_lineLayout = some l ∧ l.isValid = true ∧
        0 ≤ t.m_viewLine ∧ t.m_viewLine < l.viewLineCount) ∧
    (KateTextLayout.create (some ll) i).isValid = true := by
  constructor
  · cases hml : t.m_lineLayout with
    | none => simp [KateTextLayout.isValid, hml, validFor]
    | some l => simp [KateTextLayout.isValid, hml, validFor, and_assoc]
  · rw [isValid_create]
    unfold validFor
    simp only [hll, Bool.true_and, Bool.and_eq_true, decide_eq_true_eq]
    exact ⟨h0, hc⟩

/-- C6, witnessed on a one-run valid line at index 0. -/
theorem c6_isValid_iff_witness :
    ((KateTextLayout.create (some ⟨true, 2, 2, 0, [⟨0, 1, 5⟩], [false]⟩) 0).isValid = true ↔
      ∃ l, (KateTextLayout.create (some ⟨true, 2, 2, 0, [⟨0, 1, 5⟩], [false]⟩) 0).m_lineLayout
            = some l ∧ l.isValid = true ∧
          0 ≤ (KateTextLayout.create (some ⟨true, 2, 2, 0, [⟨0, 1, 5⟩], [false]⟩) 0).m_viewLine ∧
          (KateTextLayout.create (some ⟨true, 2, 2, 0, [⟨0, 1, 5⟩], [false]⟩) 0).m_viewLine
            < l.viewLineCount) ∧
    (KateTextLayout.create (some ⟨true, 2, 2, 0, [⟨0, 1, 5⟩], [false]⟩) 0).isValid = true :=
  c6_isValid_iff (KateTextLayout.create (some ⟨true, 2, 2, 0, [⟨0, 1, 5⟩], [false]⟩) 0)
    ⟨true, 2, 2, 0, [⟨0, 1, 5⟩], [false]⟩ 0 (by decide) (by decide) (by decide)

/-- C7: on a valid instance, `xOffset()` is the owner's `shiftX()` exactly
when `startX()` is non-zero and `0` when `startX()` is zero; in particular
the first run of a line has `startX() == 0` and hence `xOffset() == 0`. -/
theorem c7_xOffset (ll : KateLineLayout) (i : Int)
    (hv : (KateTextLayout.create (some ll) i).isValid = true) :
    ((KateTextLayout.create (some ll) i).startX ≠ 0 →
      (KateTextLayout.create (some ll) i).xOffset = ll.shiftX) ∧
    ((KateTextLayout.create (some ll) i).startX = 0 →
      (KateTextLayout.create (some ll) i).xOffset = 0) ∧
    (i = 0 →
      (KateTextLayout.create (some ll) i).startX = 0 ∧
      (KateTextLayout.create (some ll) i).xOffset = 0) := by
  refine ⟨?_, ?_, ?_⟩
  · intro h
    simp [KateTextLayout.xOffset, hv, h]
  · intro h
    simp [KateTextLayout.xOffset, hv, h]
  · intro h
    subst h
    have hsx : (KateTextLayout.create (some ll) 0).startX = 0 := by
      unfold KateTextLayout.startX KateTextLayout.startXState
      simp [hv]
    exact ⟨hsx, by simp [KateTextLayout.xOffset, hv, hsx]⟩

/-- C7, witnessed on the second run of the two-run line (startX = 9 ≠ 0,
so xOffset is the owner's shiftX, 4). -/
theorem c7_xOffset_witness :
    ((KateTextLayout.create
        (some ⟨true, 0, 0, 4, [⟨0, 3, 10⟩, ⟨3, 4, 7⟩], [false, false]⟩) 1).startX ≠ 0 →
      (KateTextLayout.create
        (some ⟨true, 0, 0, 4, [⟨0, 3, 10⟩, ⟨3, 4, 7⟩], [false, false]⟩) 1).xOffset
        = KateLineLayout.shiftX ⟨true, 0, 0, 4, [⟨0, 3, 10⟩, ⟨3, 4, 7⟩], [false, false]⟩) ∧
    ((KateTextLayout.create
        (some ⟨true, 0, 0, 4, [⟨0, 3, 10⟩, ⟨3, 4, 7⟩], [false, false]⟩) 1).startX = 0 →
      (KateTextLayout.create
        (some ⟨true, 0, 0, 4, [⟨0, 3, 10⟩, ⟨3, 4, 7⟩], [false, false]⟩) 1).xOffset = 0) ∧
    ((1 : Int) = 0 →
      (KateTextLayout.create
        (some ⟨true, 0, 0, 4, [⟨0, 3, 10⟩, ⟨3, 4, 7⟩], [false, false]⟩) 1).startX = 0 ∧
      (KateTextLayout.create
        (some ⟨true, 0, 0, 4, [⟨0, 3, 10⟩, ⟨3, 4, 7⟩], [false, false]⟩) 1).xOffset = 0) :=
  c7_xOffset ⟨true, 0, 0, 4, [⟨0, 3, 10⟩, ⟨3, 4, 7⟩], [false, false]⟩ 1 (by decide)

@[simp]
lemma setShiftX_m_startX (t : KateTextLayout) (s : Int) :
    (t.setShiftX s).m_startX = t.m_startX := rfl

@[simp]
lemma setShiftX_m_viewLine (t : KateTextLayout) (s : Int) :
    (t.setShiftX s).m_viewLine = t.m_viewLine := rfl

lemma isValid_setShiftX (t : KateTextLayout) (s : Int) :
    (t.setShiftX s).isValid = t.isValid := by
  cases hml : t.m_lineLayout with
  | none => simp [KateTextLayout.setShiftX, KateTextLayout.isValid, hml]
  | some ll =>
      simp [KateTextLayout.setShiftX, KateTextLayout.isValid, hml, validFor,
        KateLineLayout.viewLineCount]

lemma ownerRuns_setShiftX (t : KateTextLayout) (s : Int) :
    (t.setShiftX s).ownerRuns = t.ownerRuns := by
  cases hml : t.m_lineLayout with
  | none => simp [KateTextLayout.setShiftX, KateTextLayout.ownerRuns, hml]
  | some ll => simp [KateTextLayout.setShiftX, KateTextLayout.ownerRuns, hml]

lemma startXState_fst (u : KateTextLayout) :
    u.startXState.1 =
      if u.isValid = true then
        if u.m_startX = -1 then
          u.m_startX + sumWidths u.ownerRuns u.m_viewLine.toNat
        else u.m_startX
      else 0 := by
  unfold KateTextLayout.startXState
  split_ifs <;> rfl

lemma startXState_snd_m_lineLayout (u : KateTextLayout) :
    u.startXState.2.m_lineLayout = u.m_lineLayout := by
  unfold KateTextLayout.startXState
  split_ifs <;> rfl

lemma startXState_snd_m_viewLine (u : KateTextLayout) :
    u.startXState.2.m_viewLine = u.m_viewLine := by
  unfold KateTextLayout.startXState
  split_ifs <;> rfl

lemma startXState_snd_m_textLayout (u : KateTextLayout) :
    u.startXState.2.m_textLayout = u.m_textLayout := by
  unfold KateTextLayout.startXState
  split_ifs <;> rfl

lemma startXState_snd_m_startX (u : KateTextLayout) :
    u.startXState.2.m_startX =
      if u.isValid = true then
        if u.m_startX = -1 then
          u.m_startX + sumWidths u.ownerRuns u.m_viewLine.toNat
        else u.m_startX
      else u.m_startX := by
  unfold KateTextLayout.startXState
  split_ifs <;> rfl

/-- C8: the value of `startX()` is stable: a second call on the updated
instance returns the first call's value, and this stays true even when the
owner's `shiftX` is overwritten between the two calls (the computation
never reads `shiftX` and the cache, once filled, determines the result). -/
theorem c8_startX_idempotent (t : KateTextLayout) (s : Int) :
    t.startXState.2.startXState.1 = t.startXState.1 ∧
    (t.startXState.2.setShiftX s).startXState.1 = t.startXState.1 := by
  have hml1 : t.startXState.2.m_lineLayout = t.m_lineLayout :=
    startXState_snd_m_lineLayout t
  have hvl1 : t.startXState.2.m_viewLine = t.m_viewLine :=
    startXState_snd_m_viewLine t
  have hval1 : t.startXState.2.isValid = t.isValid := by
    unfold KateTextLayout.isValid
    rw [hml1, hvl1]
  have hrun1 : t.startXState.2.ownerRuns = t.ownerRuns := by
    unfold KateTextLayout.ownerRuns
    rw [hml1]
  constructor
  · rw [startXState_fst t.startXState.2, hval1, startXState_snd_m_startX t,
      hvl1, hrun1, startXState_fst t]
    by_cases hv : t.isValid = true
    · simp only [hv, if_true]
      split_ifs <;> omega
    · simp [hv]
  · rw [startXState_fst (t.startXState.2.setShiftX s), isValid_setShiftX, hval1,
      setShiftX_m_startX, startXState_snd_m_startX t, ownerRuns_setShiftX, hrun1,
      setShiftX_m_viewLine, hvl1, startXState_fst t]
    by_cases hv : t.isValid = true
    · simp only [hv, if_true]
      split_ifs <;> omega
    · simp [hv]

/-- The owner's fields other than the per-run dirty bits, as seen through a
`KateTextLayout` (used to state what `setDirty` leaves untouched). -/
def ownerMeta (t : KateTextLayout) : Option (Bool × Int × Int × Int × List Run) :=
  t.m_lineLayout.map fun ll => (ll.isValid, ll.line, ll.virtualLine, ll.shiftX, ll.runs)

/-- The owner's per-run dirty bits as seen through a `KateTextLayout`. -/
def ownerDirty (t : KateTextLayout) : List Bool :=
  match t.m_lineLayout with
  | some ll => ll.dirtyFlags
  | none => []

/-- C9: `startX()`'s lazy computation writes only the instance's own cache
field — the owner reference, the view-line index and the copied run are
untouched — and `setDirty` leaves every owner field except the dirty bits
unchanged and every dirty bit other than the addressed view line's
unchanged. -/
theorem c9_query_frame (t : KateTextLayout) (d : Bool) (j : Nat)
    (hj : j ≠ t.m_viewLine.toNat) :
    t.startXState.2.m_lineLayout = t.m_lineLayout ∧
    t.startXState.2.m_viewLine = t.m_viewLine ∧
    t.startXState.2.m_textLayout = t.m_textLayout ∧
    ownerMeta (t.setDirtyState d).2 = ownerMeta t ∧
    (ownerDirty (t.setDirtyState d).2).getD j false
      = (ownerDirty t).getD j false := by
  refine ⟨startXState_snd_m_lineLayout t, startXState_snd_m_viewLine t,
    startXState_snd_m_textLayout t, ?_, ?_⟩ <;>
  · cases hml : t.m_lineLayout with
    | none =>
        have hv : t.isValid = false := by
          unfold KateTextLayout.isValid
          rw [hml]
          rfl
        simp [KateTextLayout.setDirtyState, hv]
    | some ll =>
        by_cases hv : t.isValid = true
        · have hlv := isValid_some_elim t ll hml hv
          have hsd : (t.setDirtyState d).2 = { t with m_lineLayout := some ({ ll with dirtyFlags := ll.dirtyFlags.set t.m_viewLine.toNat d }) } := by
            unfold KateTextLayout.setDirtyState
            simp [hv, KateTextLayout.ownerD, hml, KateLineLayout.runSetDirty,
              hlv.1, KateTextLayout.viewLine]
          rw [hsd]
          simp only [ownerMeta, ownerDirty, hml, Option.map_some]
          first
          | rfl
          | exact getD_set_ne ll.dirtyFlags t.m_viewLine.toNat j d false hj
        · simp [KateTextLayout.setDirtyState, hv]

/-- C9, witnessed on the two-run line, setting the dirty bit of view line 1
and checking the dirty bit of view line 0 is untouched. -/
theorem c9_query_frame_witness :
    (KateTextLayout.create
        (some ⟨true, 0, 0, 4, [⟨0, 3, 10⟩, ⟨3, 4, 7⟩], [false, false]⟩)
        1).startXState.2.m_lineLayout
      = (KateTextLayout.create
        (some ⟨true, 0, 0, 4, [⟨0, 3, 10⟩, ⟨3, 4, 7⟩], [false, false]⟩)
        1).m_lineLayout ∧
    (KateTextLayout.create
        (some ⟨true, 0, 0, 4, [⟨0, 3, 10⟩, ⟨3, 4, 7⟩], [false, false]⟩)
        1).startXState.2.m_viewLine
      = (KateTextLayout.create
        (some ⟨true, 0, 0, 4, [⟨0, 3, 10⟩, ⟨3, 4, 7⟩], [false, false]⟩)
        1).m_viewLine ∧
    (KateTextLayout.create
        (some ⟨true, 0, 0, 4, [⟨0, 3, 10⟩, ⟨3, 4, 7⟩], [false, false]⟩)
        1).startXState.2.m_textLayout
      = (KateTextLayout.create
        (some ⟨true, 0, 0, 4, [⟨0, 3, 10⟩, ⟨3, 4, 7⟩], [false, false]⟩)
        1).m_textLayout ∧
    ownerMeta ((KateTextLayout.create
        (some ⟨true, 0, 0, 4, [⟨0, 3, 10⟩, ⟨3, 4, 7⟩], [false, false]⟩)
        1).setDirtyState true).2
      = ownerMeta (KateTextLayout.create
        (some ⟨true, 0, 0, 4, [⟨0, 3, 10⟩, ⟨3, 4, 7⟩], [false, false]⟩) 1) ∧
    (ownerDirty ((KateTextLayout.create
        (some ⟨true, 0, 0, 4, [⟨0, 3, 10⟩, ⟨3, 4, 7⟩], [false, false]⟩)
        1).setDirtyState true).2).getD 0 false
      = (ownerDirty (KateTextLayout.create
        (some ⟨true, 0, 0, 4, [⟨0, 3, 10⟩, ⟨3, 4, 7⟩], [false, false]⟩)
        1)).getD 0 false :=
  c9_query_frame
    (KateTextLayout.create
      (some ⟨true, 0, 0, 4, [⟨0, 3, 10⟩, ⟨3, 4, 7⟩], [false, false]⟩) 1)
    true 0 (by decide)

/-- C10: on an invalid `KateTextLayout`, `isDirty()`, `setDirty(d)` for
either flag value, and `isEmpty()` all return `true` rather than the
`false` neutral default. -/
theorem c10_invalid_dirty_conservative (t : KateTextLayout) (d : Bool)
    (h : t.isValid = false) :
    t.isDirty = true ∧ (t.setDirtyState d).1 = true ∧ t.isEmpty = true := by
  simp [KateTextLayout.isDirty, KateTextLayout.setDirtyState,
    KateTextLayout.isEmpty, h]

/-- C10, witnessed on the null-owner instance. -/
theorem c10_invalid_dirty_conservative_witness :
    (KateTextLayout.create none 0).isDirty = true ∧
    ((KateTextLayout.create none 0).setDirtyState false).1 = true ∧
    (KateTextLayout.create none 0).isEmpty = true :=
  c10_invalid_dirty_conservative (KateTextLayout.create none 0) false (by decide)
